import Mathlib

/-!
Verification development for the crosstime scheduling application.

The definitions below are a shallow embedding of the TypeScript source:

* `src/app/api/events/users/route.ts` — the sign-in endpoint (`POST
  /events/users`) and the session read endpoint;
* `src/app/api/events/route.ts` — the event create/fetch/replace endpoints
  (`POST`, `GET`, `PUT /events`);
* `src/components/EventViewPage.tsx` — the time-grid generator, the
  availability aggregation (bucket colors and the best-times ranking) and
  the client-side sign-in / autosave logic;
* `src/components/SignInDialog.tsx` — the sign-in form validation.

Modelling conventions:

* JavaScript `string | undefined` / `string | null` values are `Option
  String`; JS truthiness of strings is `≠ ""`, of optional numbers
  `Option.isSome` together with `≠ 0`.
* `String.prototype.toLowerCase()` is modelled by `strLower`, a per-character
  lowercase map (the source only ever lowercases ASCII display names).
* Instants (`DateTime` values, `toMillis()` results) are integers counting
  minutes; IANA zones are modelled as fixed UTC offsets in minutes, which is
  exact for any single date (Luxon's zone arithmetic at a fixed instant is an
  offset addition).  `setZone` preserves the instant, so comparisons between
  converted `DateTime`s compare the underlying instants.
* The `SignInDialog` trims the name field before invoking `onSignIn`, and the
  save handler re-trims the same value before the network call; sign-in flow
  functions therefore take the name already trimmed.
* Database writes (`updateOne`, `findOneAndUpdate`) act on the first document
  matching the `id` filter, modelled by explicit recursion over the stored
  list of documents.
* Rational arithmetic (`ℚ`) stands in for JS floating point; every ratio the
  claims mention is exactly representable at the scales involved.
-/

/-- Lowercase of a string, character by character; model of
`String.prototype.toLowerCase()`. -/
def strLower (s : String) : String := ⟨s.data.map Char.toLower⟩

/-- Availability of one identity at one slot, the `{date, time, available,
timestamp}` records built in `EventViewPage.tsx` (the `timestamp` is the
last-write instant, an ISO string). -/
structure AvailabilityEntry where
  date : String
  time : String
  available : Bool
  timestamp : String
  deriving DecidableEq, Repr

/-- One participant's response, the `EventResponse` interface of
`route.ts`: display name, optional password (compared verbatim), email and
the availability list. -/
structure EventResponse where
  name : String
  password : Option String
  email : String
  availability : List AvailabilityEntry
  deriving DecidableEq, Repr

/-- Timezone record `{value, label}` (IANA id and display label). -/
structure Timezone where
  value : String
  label : String
  deriving DecidableEq, Repr

/-- Stored event document: the fields written by `POST /events` plus the
storage-side `createdAt` stamp and the optional `responseLimit` /
`hideResponses` flags used by the sign-in endpoint. -/
structure EventDocument where
  id : String
  name : String
  selectedDates : List String
  startTime : String
  endTime : String
  timezone : Timezone
  timeSlots : List String
  responses : List EventResponse
  responseLimit : Option Nat
  hideResponses : Bool
  requireEmail : Bool
  createdAt : Nat
  deriving DecidableEq, Repr

/-- Truthiness of the optional `responseLimit` field (`event.responseLimit`
in a JS boolean position: present and non-zero). -/
def limitTruthy : Option Nat → Bool
  | none => false
  | some n => n != 0

/-- Truthiness of an optional string (`password` in a JS boolean position:
present and non-empty). -/
def pwTruthy : Option String → Bool
  | none => false
  | some s => s != ""

/-- Outcome of the `POST /events/users` handler, tagged with the payload the
route returns: a 400 validation message, a 404, a 401 auth message, or the
200 success carrying the response document pushed into the event (if a new
identity was created) and the `userName` echoed back (which is also the
identity bound into the issued 24-hour cookie). -/
inductive SignInResult where
  | validationError (msg : String)
  | notFoundError (msg : String)
  | authError (msg : String)
  | success (created : Option EventResponse) (userName : String)
  deriving DecidableEq, Repr

/-- HTTP status code of a `SignInResult`. -/
def statusOf : SignInResult → Nat
  | .validationError _ => 400
  | .notFoundError _ => 404
  | .authError _ => 401
  | .success _ _ => 200

/-- The `POST /api/events/users` handler (sign-in), `route.ts` lines 73-230.
Validates presence of `eventId`/`userName`, loads the event, requires a
password when `responseLimit` is truthy (400 otherwise), matches the name
case-insensitively against existing responses, compares passwords verbatim
for response-limited events, and pushes a fresh response document for a new
name.  There is no `responses.length` check anywhere in the handler. -/
def postSignIn (events : List EventDocument) (eventId userName : String)
    (password : Option String) : SignInResult :=
  if eventId = "" ∨ userName = "" then
    .validationError "Event ID and username are required"
  else
    match events.find? (fun e => e.id = eventId) with
    | none => .notFoundError "Event not found"
    | some event =>
      if limitTruthy event.responseLimit ∧ ¬ pwTruthy password then
        .validationError "Password is required for response-limited events"
      else
        match event.responses.find?
            (fun r => strLower r.name = strLower userName) with
        | some existingResponse =>
          if limitTruthy event.responseLimit then
            if ¬ pwTruthy password then
              .authError "Password required for this response-limited event"
            else if existingResponse.password ≠ password then
              .authError "Incorrect password"
            else
              .success none userName
          else
            .success none userName
        | none =>
          if limitTruthy event.responseLimit ∧ ¬ pwTruthy password then
            .validationError "Password is required for response-limited events"
          else
            .success
              (some
                { name := userName
                  password :=
                    if limitTruthy event.responseLimit then password
                    else
                      match password with
                      | some s => if s = "" then none else some s
                      | none => none
                  email := ""
                  availability := [] })
              userName

/-- The `isResponseLimitReached` helper of `EventViewPage.tsx` (lines
962-965). -/
def isResponseLimitReached (ev : EventDocument) : Bool :=
  if ¬ limitTruthy ev.responseLimit then false
  else ev.responses.length ≥ ev.responseLimit.getD 0

/-- The `isPasswordRequired` helper of `EventViewPage.tsx` (lines 980-982). -/
def isPasswordRequired (ev : EventDocument) : Bool :=
  limitTruthy ev.responseLimit

/-- Outcome of the client-side sign-in flow (`SignInDialog.handleSubmit` →
`onSignIn` → `handleSignIn` → server): a local validation message, the
response-limit lock message, a rejected server response, or a completed
sign-in with the identity the server echoed. -/
inductive ClientSignInResult where
  | validationMessage (msg : String)
  | lockedMessage (msg : String)
  | serverRejected (r : SignInResult)
  | signedIn (userName : String)
  deriving DecidableEq, Repr

/-- The message set by `onSignIn` in `EventViewPage.tsx` (line 1575) when the
response limit blocks a new participant. -/
def lockedMsg : String :=
  "This event has reached its response limit and is not accepting new participants."

/-- The `handleSignIn` function of `EventViewPage.tsx` (lines 657-709):
client-side password-presence check for response-limited events, then the
`POST /api/events/users` request; a non-2xx response surfaces as the sign-in
error, success keeps the session. -/
def handleSignIn (events : List EventDocument) (ev : EventDocument)
    (userName password : String) : ClientSignInResult :=
  if isPasswordRequired ev ∧ password = "" then
    .validationMessage "Password is required for response-limited events."
  else if ev.id = "" then
    .validationMessage "Missing event id"
  else
    match postSignIn events ev.id userName
        (if password = "" then none else some password) with
    | .success _ u => .signedIn u
    | r => .serverRejected r

/-- The complete client sign-in flow: the `SignInDialog.handleSubmit` field
validation (lines 32-42 of `SignInDialog.tsx`), then the `onSignIn` callback
of `EventViewPage.tsx` (lines 1570-1586) with its response-limit gate (an
exact, case-sensitive `some(r => r.name === userName)` membership test),
then `handleSignIn`.  `userName` is the dialog-trimmed name. -/
def clientSignIn (events : List EventDocument) (ev : EventDocument)
    (userName password : String) : ClientSignInResult :=
  if userName = "" then
    .validationMessage "Please enter your name"
  else if isPasswordRequired ev ∧ password = "" then
    .validationMessage "Password is required for this event"
  else
    let isNewUser := ! ev.responses.any (fun r => r.name = userName)
    if isResponseLimitReached ev ∧ isNewUser then
      .lockedMessage lockedMsg
    else
      handleSignIn events ev userName password

/-- Fixture builder: an event document with the given id, responses and
response limit (the remaining fields are irrelevant to the sign-in logic). -/
def mkEvent (id : String) (responses : List EventResponse)
    (responseLimit : Option Nat) : EventDocument :=
  { id := id
    name := "Team sync"
    selectedDates := ["2025-01-06"]
    startTime := "9:00 AM"
    endTime := "5:00 PM"
    timezone := { value := "America/New_York", label := "Eastern Time" }
    timeSlots := []
    responses := responses
    responseLimit := responseLimit
    hideResponses := false
    requireEmail := false
    createdAt := 0 }

/-- Fixture: the pre-existing response of participant `Ada` with password
`x`. -/
def adaResp : EventResponse :=
  { name := "Ada", password := some "x", email := "", availability := [] }

/-- Fixture: a response-limited event (`responseLimit = 1`) that already
holds `Ada`'s response, so the limit is reached. -/
def evW : EventDocument := mkEvent "e" [adaResp] (some 1)

/-- Fixture: an event without a response limit holding `Ada`'s response. -/
def evA : EventDocument := mkEvent "e" [adaResp] none

/-- Payload of the signed session cookie: `sign({ userName, eventId }, …)` in
`route.ts` line 199. -/
structure JwtPayload where
  userName : String
  eventId : String
  deriving DecidableEq, Repr

/-- Body of a `PUT /events` request: the fields the client sends (and that a
crafted request may set to anything).  The storage-side `createdAt` and the
`responseLimit` are not part of the body. -/
structure EventBody where
  id : String
  name : String
  selectedDates : List String
  requireEmail : Bool
  hideResponses : Bool
  startTime : String
  endTime : String
  timezone : Timezone
  timeSlots : List String
  responses : List EventResponse
  deriving DecidableEq, Repr

/-- MongoDB `$set` with the whole request body: every field present in the
body overwrites the stored field; fields absent from the body
(`responseLimit`, `createdAt`) are preserved. -/
def applySet (e : EventDocument) (b : EventBody) : EventDocument :=
  { e with
    id := b.id
    name := b.name
    selectedDates := b.selectedDates
    requireEmail := b.requireEmail
    hideResponses := b.hideResponses
    startTime := b.startTime
    endTime := b.endTime
    timezone := b.timezone
    timeSlots := b.timeSlots
    responses := b.responses }

/-- Effect of `findOneAndUpdate({id}, {$set: body})` on the stored list: the
first document whose `id` matches is overwritten with the body's fields. -/
def updateFirst (events : List EventDocument) (id : String) (b : EventBody) :
    List EventDocument :=
  match events with
  | [] => []
  | e :: rest =>
    if e.id = id then applySet e b :: rest else e :: updateFirst rest id b

/-- Outcome of the `PUT /events` handler. -/
inductive PutResult where
  | unauthenticated
  | notFoundError
  | ok (doc : EventDocument)
  | serverError
  deriving DecidableEq, Repr

/-- HTTP status code of a `PutResult`.  The `serverError` case is the outer
`catch` of the handler, which returns 500. -/
def putStatus : PutResult → Nat
  | .unauthenticated => 401
  | .notFoundError => 404
  | .ok _ => 200
  | .serverError => 500

/-- The `PUT /api/events` handler (`route.ts` lines 171-210).  `cookies` maps
cookie names to values; `verify` is JWT verification, `none` meaning the
library throws (invalid signature or expired token).  A missing
`auth_token_<id>` cookie returns 401; a throwing `verify` is caught by the
handler's outer `catch`, which returns 500; a null `findOneAndUpdate` result
returns 404; otherwise the post-update document is returned with 200.  The
decoded payload is never inspected: no check relates the token's identity to
the responses being written. -/
def putEvent (verify : String → Option JwtPayload)
    (events : List EventDocument) (cookies : String → Option String)
    (body : EventBody) : PutResult × List EventDocument :=
  match cookies ("auth_token_" ++ body.id) with
  | none => (.unauthenticated, events)
  | some tok =>
    match verify tok with
    | none => (.serverError, events)
    | some _ =>
      match events.find? (fun e => e.id = body.id) with
      | none => (.notFoundError, events)
      | some e => (.ok (applySet e body), updateFirst events body.id body)

/-- Construction of the `responses` array in the autosave `PUT` body
(`EventViewPage.tsx` lines 186-193): drop every stored response whose name
equals `currentUser` under the case-sensitive `!==` comparison, then append
the freshly built response for `currentUser` (the autosave body carries no
password field). -/
def upsertResponses (responses : List EventResponse)
    (currentUser userEmail : String)
    (availability : List AvailabilityEntry) : List EventResponse :=
  responses.filter (fun r => r.name ≠ currentUser) ++
    [{ name := currentUser, password := none, email := userEmail,
       availability := availability }]

/-- Case-insensitive uniqueness of response names within one event, the
data-model invariant of the specification. -/
def namesCIUnique (responses : List EventResponse) : Prop :=
  (responses.map (fun r => strLower r.name)).Nodup

instance (responses : List EventResponse) : Decidable (namesCIUnique responses) :=
  inferInstanceAs (Decidable (List.Nodup _))

/-- Match groups of the time-label regex `(\d+):(\d+)\s*(am|pm)?` used by the
slot generators: hour, minute and the optional meridiem (`some true` = pm,
`some false` = am). -/
structure ParsedTime where
  hour : Nat
  minute : Nat
  meridiem : Option Bool
  deriving DecidableEq, Repr

/-- The 12-hour → 24-hour conversion written inline in both slot generators:
pm adds 12 unless the hour is 12, am maps 12 to 0, otherwise the hour is
taken as-is. -/
def to24Hour (p : ParsedTime) : Nat :=
  if p.meridiem = some true ∧ p.hour ≠ 12 then p.hour + 12
  else if p.meridiem = some false ∧ p.hour = 12 then 0
  else p.hour

/-- The slot emission loop shared by `generateTimeSlotsForTimezone` (lines
459-470) and `allTimeSlots` (lines 636-652): starting at the converted start
instant, emit an instant and advance by 15 minutes while the current instant
is at most the end instant. -/
def slotLoop (current endT : Int) : List Int :=
  if h : current ≤ endT then current :: slotLoop (current + 15) endT else []
termination_by (endT + 15 - current).toNat
decreasing_by omega

/-- The `generateTimeSlotsForTimezone` function of `EventViewPage.tsx`
(lines 414-473): anchor the parsed wall-clock endpoints to the given day in
the event's zone (producing absolute instants), convert to the viewer's zone
(`setZone` preserves the instant, so the loop below compares the same
instants), and run the emission loop.  `dayBase` is the instant at which the
event-zone wall clock reads midnight of the chosen date, and `eventOffset`
is the event zone's UTC-offset in minutes (the viewer offset affects only
the `h:mm a` display labels, not the emitted instants). -/
def generateTimeSlotsForTimezone (dayBase : Int) (eventOffset : Int)
    (startP endP : ParsedTime) : List Int :=
  let startInstant : Int := dayBase + (to24Hour startP * 60 + startP.minute : Nat) - eventOffset
  let endInstant : Int := dayBase + (to24Hour endP * 60 + endP.minute : Nat) - eventOffset
  slotLoop startInstant endInstant

/-- The `allTimeSlots` memo of `EventViewPage.tsx` (lines 591-655).  It
differs from `generateTimeSlotsForTimezone` by one statement before the
loop, transcribed here exactly as it behaves: the source executes
`endTime.plus({ days: 1 })` when `endTime <= currentTime`, but Luxon
`DateTime`s are immutable and the returned shifted value is discarded, so
`endTime` is unchanged and the loop runs with the original endpoints. -/
def allTimeSlots (dayBase : Int) (eventOffset : Int)
    (startP endP : ParsedTime) : List Int :=
  let startInstant : Int := dayBase + (to24Hour startP * 60 + startP.minute : Nat) - eventOffset
  let endInstant : Int := dayBase + (to24Hour endP * 60 + endP.minute : Nat) - eventOffset
  let endTime : Int := endInstant
  let _ := if endTime ≤ startInstant then endTime + 1440 else endTime
  slotLoop startInstant endTime

/-- Availability buckets of the everyone view, named after the CSS classes
`getTimeSlotColor` returns (`full` = `bg-green-900`, `high` = `bg-green-700`,
`medium` = `bg-green-500`, `low` = `bg-green-300`, `none` = the unhighlighted
border style). -/
inductive Bucket where
  | none
  | low
  | medium
  | high
  | full
  deriving DecidableEq, Repr

/-- The everyone-view bucket computation of `getTimeSlotColor`
(`EventViewPage.tsx` lines 346-359): a zero total short-circuits to the
unhighlighted style, otherwise the ratio `count/total` is classified by
`=== 1`, `>= 0.75`, `>= 0.5`, `> 0` in that order. -/
def timeSlotBucket (count total : Nat) : Bucket :=
  if total = 0 then .none
  else
    let percentage : ℚ := (count : ℚ) / (total : ℚ)
    if percentage = 1 then .full
    else if percentage ≥ 3 / 4 then .high
    else if percentage ≥ 1 / 2 then .medium
    else if percentage > 0 then .low
    else .none

/-- Bucketing rule exactly as the specification words it: `0 → none`,
`(0, 0.5) → low`, `[0.5, 0.75) → medium`, `[0.75, 1.0) → high`,
`{1.0} → full`, and `total = 0` always `none`. -/
def ratioBucketSpec (count total : Nat) : Bucket :=
  if total = 0 then .none
  else
    let r : ℚ := (count : ℚ) / (total : ℚ)
    if r = 0 then .none
    else if r < 1 / 2 then .low
    else if r < 3 / 4 then .medium
    else if r < 1 then .high
    else .full

/-- One entry of the best-times `availabilityMap` (`EventViewPage.tsx` lines
1482-1487): slot timestamp, display label, number of available identities
and the total used as denominator. -/
structure BestSlotEntry where
  timestamp : Int
  time : String
  available : Nat
  total : Nat
  deriving DecidableEq, Repr

/-- The best-times qualification filter (`EventViewPage.tsx` lines
1490-1492): keep the slots whose ratio `available/total` is at least the
literal `0.51`. -/
def bestSlots (m : List BestSlotEntry) : List BestSlotEntry :=
  m.filter (fun s => (s.available : ℚ) / (s.total : ℚ) ≥ 51 / 100)

/-- The `hasSelectedUsers` helper (`EventViewPage.tsx` line 977): some
checkbox value is true. -/
def hasSelectedUsers (sel : List (String × Bool)) : Bool :=
  sel.any (fun p => p.2)

/-- Lookup `selectedUsers[name]` with JS semantics: an absent key is falsy. -/
def selectedLookup (sel : List (String × Bool)) (name : String) : Bool :=
  ((sel.find? (fun p => p.1 = name)).map (fun p => p.2)).getD false

/-- The response filter of `getAvailabilityDetails` (`EventViewPage.tsx`
lines 317-320): with a non-empty selection only the checked responses are
considered, otherwise all of them. -/
def filteredResponses (responses : List EventResponse)
    (sel : List (String × Bool)) : List EventResponse :=
  if hasSelectedUsers sel then
    responses.filter (fun r => selectedLookup sel r.name)
  else responses

/-- The `getAvailabilityDetails` function (`EventViewPage.tsx` lines
314-335): names of the (selection-filtered) responses marked available at
the given date and slot key. -/
def getAvailabilityDetails (responses : List EventResponse)
    (sel : List (String × Bool)) (date time : String) : List String :=
  ((filteredResponses responses sel).filter
    (fun r => r.availability.any
      (fun a => a.date = date ∧ a.time = time ∧ a.available))).map
    (fun r => r.name)

/-- The `totalResponses` denominator of `getTimeSlotColor`
(`EventViewPage.tsx` lines 347-349): the number of checked selection entries
when a selection is active, otherwise the number of responses. -/
def colorTotalResponses (responses : List EventResponse)
    (sel : List (String × Bool)) : Nat :=
  if hasSelectedUsers sel then (sel.filter (fun p => p.2)).length
  else responses.length

/-- The everyone-view branch of `getTimeSlotColor` (`EventViewPage.tsx`
lines 346-359) as a bucket: available count over the selection-filtered
responses, denominator per `colorTotalResponses`. -/
def getTimeSlotColor (responses : List EventResponse)
    (sel : List (String × Bool)) (date time : String) : Bucket :=
  timeSlotBucket (getAvailabilityDetails responses sel date time).length
    (colorTotalResponses responses sel)

/-- The best-times `availabilityMap` builder (`EventViewPage.tsx` lines
1482-1487): one entry per grid slot, the availability looked up by the slot
timestamp rendered as a string, the `total` field always the length of the
full `responses` array. -/
def bestTimesMap (responses : List EventResponse)
    (sel : List (String × Bool)) (date : String)
    (slots : List (Int × String)) : List BestSlotEntry :=
  slots.map (fun s =>
    { timestamp := s.1
      time := s.2
      available := (getAvailabilityDetails responses sel date (toString s.1)).length
      total := responses.length })

/-- Fixture: a response named `nm` that is available at slot key `600` of
date `d`. -/
def availResp (nm : String) : EventResponse :=
  { name := nm, password := none, email := "",
    availability := [{ date := "d", time := "600", available := true,
                       timestamp := "" }] }

/-- Fixture: three responses of which `A` and `B` are available at slot
`600` of date `d` and `C` has no availability. -/
def threeResponses : List EventResponse :=
  [availResp "A", availResp "B",
   { name := "C", password := none, email := "", availability := [] }]

/-- Fixture: a selection checking exactly `A` and `B`. -/
def selAB : List (String × Bool) := [("A", true), ("B", true)]

/-- Fixture: a stored event document for the `PUT /events` theorems. -/
def evStored : EventDocument := mkEvent "e" [adaResp] (some 1)

/-- Fixture: a crafted `PUT /events` body that renames the event, changes the
dates, window and timezone, and overwrites every response. -/
def bodyCrafted : EventBody :=
  { id := "e"
    name := "Hijacked"
    selectedDates := ["2031-12-31"]
    requireEmail := false
    hideResponses := false
    startTime := "1:00 AM"
    endTime := "2:00 AM"
    timezone := { value := "Pacific/Kiritimati", label := "Kiritimati" }
    timeSlots := []
    responses := [{ name := "Mallory", password := none, email := "",
                    availability := [] }] }

/-- Fixture: a cookie jar holding one session token for event `e`. -/
def cookiesE : String → Option String :=
  fun n => if n = "auth_token_e" then some "tok" else none

/-- Fixture: a verifier that accepts every token as `Sam`'s session. -/
def verifySam : String → Option JwtPayload :=
  fun _ => some { userName := "Sam", eventId := "e" }

/-- Fixture: a verifier that accepts every token as `Eve`'s session. -/
def verifyEve : String → Option JwtPayload :=
  fun _ => some { userName := "Eve", eventId := "e" }

/-- Fixture: a verifier that rejects every token (expired or forged). -/
def verifyFail : String → Option JwtPayload := fun _ => none

lemma slotLoop_unfold (current endT : Int) :
    slotLoop current endT =
      if current ≤ endT then current :: slotLoop (current + 15) endT else [] := by
  rw [slotLoop]
  by_cases h : current ≤ endT <;> simp [h]

/-- C2: the source intends to roll a window whose converted end does not
exceed its start over to the next day (`EventViewPage.tsx` lines 640-642),
but the shifted `DateTime` returned by `plus` is discarded, so a
cross-midnight window (here 10:00 PM – 2:00 AM, viewer timezone equal to the
event timezone) produces an empty slot list instead of a non-empty next-day
span; `generateTimeSlotsForTimezone` has no rollover handling at all and is
empty on the same window. -/
theorem C2_code_eval :
    allTimeSlots 0 0 ⟨10, 0, some true⟩ ⟨2, 0, some false⟩ = [] ∧
    generateTimeSlotsForTimezone 0 0 ⟨10, 0, some true⟩ ⟨2, 0, some false⟩ = [] := by
  have h22 : allTimeSlots 0 0 ⟨10, 0, some true⟩ ⟨2, 0, some false⟩ =
      slotLoop 1320 120 := by
    simp [allTimeSlots, to24Hour]
  have h22g : generateTimeSlotsForTimezone 0 0 ⟨10, 0, some true⟩ ⟨2, 0, some false⟩ =
      slotLoop 1320 120 := by
    simp [generateTimeSlotsForTimezone, to24Hour]
  rw [h22, h22g, slotLoop_unfold]
  norm_num

/-- C4: the claimed case-insensitive uniqueness invariant is broken by the
autosave upsert.  The server-side sign-in matches names case-insensitively,
so signing in as `ada` against an event holding `Ada` creates no new
response and binds the session to the literal string `ada`; the autosave
body then filters stored responses with the case-sensitive `!==`, keeping
`Ada` and appending `ada`, leaving two responses whose names are equal under
case-insensitive comparison. -/
theorem C4_code_eval :
    postSignIn [evA] "e" "ada" none = .success none "ada" ∧
    (upsertResponses evA.responses "ada" "" []).map (fun r => r.name) =
      ["Ada", "ada"] ∧
    ¬ namesCIUnique (upsertResponses evA.responses "ada" "" []) ∧
    namesCIUnique evA.responses := by
  decide

/-- C5 counterexample: the spec's `responseLimit=1` scenario identity `Sam`
signing in with no password on a response-limited event is rejected with the
400 validation error of `route.ts` lines 112-122, not with a 401
`AuthError` as the claim states. -/
theorem C5_counterexample :
    postSignIn [evW] "e" "Sam" none =
      .validationError "Password is required for response-limited events" ∧
    statusOf (postSignIn [evW] "e" "Sam" none) = 400 ∧
    statusOf (postSignIn [evW] "e" "Sam" none) ≠ 401 := by
  decide

/-- C5 amended: on any event whose `responseLimit` is truthy, a sign-in
request without a (non-empty) password is rejected by the early check of
`route.ts` lines 112-122 with HTTP 400 and the validation message, before
the name is even matched; the 401 missing-password branch further down is
unreachable. -/
theorem C5_thm (events : List EventDocument) (eventId userName : String)
    (pw : Option String) (ev : EventDocument)
    (hid : eventId ≠ "") (hname : userName ≠ "")
    (hfind : events.find? (fun e => e.id = eventId) = some ev)
    (hlim : limitTruthy ev.responseLimit = true)
    (hpw : pwTruthy pw = false) :
    postSignIn events eventId userName pw =
      .validationError "Password is required for response-limited events" ∧
    statusOf (postSignIn events eventId userName pw) = 400 := by
  have hres : postSignIn events eventId userName pw =
      .validationError "Password is required for response-limited events" := by
    unfold postSignIn
    rw [if_neg (by simp [hid, hname]), hfind]
    simp [hlim, hpw]
  exact ⟨hres, by rw [hres]; rfl⟩

/-- C5 witness: the amended statement evaluated for the `Ada` fixture event
with the limit set and no password supplied. -/
theorem C5_witness :
    postSignIn [evW] "e" "Ada" none =
      .validationError "Password is required for response-limited events" ∧
    statusOf (postSignIn [evW] "e" "Ada" none) = 400 :=
  C5_thm [evW] "e" "Ada" none evW (by decide) (by decide) (by decide)
    (by decide) (by decide)

/-- C1 counterexample: the server-side `POST /events/users` handler contains
no response-limit check at all.  On the fixture event whose limit of 1 is
already reached, a sign-in with the brand-new name `Bob` (no
case-insensitive match among the responses) succeeds with HTTP 200 and
pushes a new response document, instead of being rejected with an event
locked error. -/
theorem C1_counterexample :
    postSignIn [evW] "e" "Bob" (some "y") =
      .success
        (some { name := "Bob", password := some "y", email := "",
                availability := [] }) "Bob" ∧
    statusOf (postSignIn [evW] "e" "Bob" (some "y")) = 200 := by
  decide

/-- C1 amended: the response-limit lock is enforced only client-side, by the
`onSignIn` gate of `EventViewPage.tsx` (lines 1570-1586), and with an exact
(case-sensitive) membership test.  On an event whose limit is reached, a
sign-in through the client flow with a name matching no existing response
case-insensitively stops with the distinct locked message before any request
is sent (not a 401 auth error), while a name exactly matching an existing
response proceeds to the server and succeeds or fails 401 purely on the
password comparison. -/
theorem C1_thm (ev : EventDocument) (userName pw : String)
    (hid : ev.id ≠ "") (hname : userName ≠ "") (hpw : pw ≠ "")
    (hlock : isResponseLimitReached ev = true) :
    ((∀ r ∈ ev.responses, strLower r.name ≠ strLower userName) →
        clientSignIn [ev] ev userName pw = .lockedMessage lockedMsg) ∧
    (∀ r : EventResponse,
        ev.responses.any (fun x => x.name = userName) = true →
        ev.responses.find? (fun x => strLower x.name = strLower userName) =
          some r →
        ((r.password = some pw →
            clientSignIn [ev] ev userName pw = .signedIn userName) ∧
         (r.password ≠ some pw →
            clientSignIn [ev] ev userName pw =
              .serverRejected (.authError "Incorrect password")))) := by
  have hlim : limitTruthy ev.responseLimit = true := by
    by_contra h
    simp [isResponseLimitReached, h] at hlock
  constructor
  · intro hci
    have hany : ev.responses.any (fun x => x.name = userName) = false := by
      rw [List.any_eq_false]
      intro x hx
      simp only [decide_eq_true_eq]
      intro hEq
      exact hci x hx (by rw [hEq])
    simp [clientSignIn, hname, hpw, hlock, hany]
  · intro r hany hfind
    have hmain : ∀ res : SignInResult,
        postSignIn [ev] ev.id userName (some pw) = res →
        clientSignIn [ev] ev userName pw =
          (match res with
           | .success _ u => ClientSignInResult.signedIn u
           | res => ClientSignInResult.serverRejected res) := by
      intro res hres
      simp [clientSignIn, handleSignIn, hname, hpw, hlock, hany,
        isPasswordRequired, hlim, hid, hres]
    have hpost : postSignIn [ev] ev.id userName (some pw) =
        (if r.password ≠ some pw then
          SignInResult.authError "Incorrect password"
         else SignInResult.success none userName) := by
      unfold postSignIn
      rw [if_neg (by simp [hid, hname])]
      have hfindEv : List.find? (fun e => decide (e.id = ev.id)) [ev] = some ev := by
        simp
      rw [hfindEv]
      have hpwT : pwTruthy (some pw) = true := by simp [pwTruthy, hpw]
      simp only [hlim, hpwT, not_true, and_false, if_false]
      rw [hfind]
      simp [hlim, hpwT]
    by_cases hcase : r.password = some pw
    · refine ⟨fun _ => ?_, fun hne => absurd hcase hne⟩
      have := hmain _ (hpost.trans (by rw [if_neg (by simp [hcase])]))
      simpa using this
    · refine ⟨fun hEq => absurd hEq hcase, fun _ => ?_⟩
      have := hmain _ (hpost.trans (by rw [if_pos (by simp [hcase])]))
      simpa using this

/-- C1 witness: on the locked fixture event, the brand-new `Bob` is stopped
with the locked message, the existing `Ada` signs in with the right password
and is rejected 401 with the wrong one. -/
theorem C1_witness :
    clientSignIn [evW] evW "Bob" "y" = .lockedMessage lockedMsg ∧
    clientSignIn [evW] evW "Ada" "x" = .signedIn "Ada" ∧
    clientSignIn [evW] evW "Ada" "z" =
      .serverRejected (.authError "Incorrect password") :=
  ⟨(C1_thm evW "Bob" "y" (by decide) (by decide) (by decide) (by decide)).1
      (by decide),
   ((C1_thm evW "Ada" "x" (by decide) (by decide) (by decide) (by decide)).2
      adaResp (by decide) (by decide)).1 (by decide),
   ((C1_thm evW "Ada" "z" (by decide) (by decide) (by decide) (by decide)).2
      adaResp (by decide) (by decide)).2 (by decide)⟩

/-- C3 counterexample: a `PUT /events` request presenting a cookie whose
token fails verification (invalid or expired) makes `verify` throw inside
the handler's `try`, so the outer `catch` answers 500, not the 401 the claim
states. -/
theorem C3_counterexample :
    putEvent verifyFail [evStored] cookiesE bodyCrafted =
      (.serverError, [evStored]) ∧
    putStatus (putEvent verifyFail [evStored] cookiesE bodyCrafted).1 = 500 ∧
    putStatus (putEvent verifyFail [evStored] cookiesE bodyCrafted).1 ≠ 401 := by
  decide

/-- C3 amended: `PUT /events` answers 401 only when the `auth_token_<id>`
cookie is absent; a present but invalid or expired credential is answered
500 (the `verify` exception falls through to the catch-all), a missing event
404, and otherwise 200 with the post-update document. -/
theorem C3_thm (verify : String → Option JwtPayload)
    (events : List EventDocument) (cookies : String → Option String)
    (body : EventBody) :
    (cookies ("auth_token_" ++ body.id) = none →
      putEvent verify events cookies body = (.unauthenticated, events) ∧
      putStatus (putEvent verify events cookies body).1 = 401) ∧
    (∀ tok, cookies ("auth_token_" ++ body.id) = some tok →
      verify tok = none →
      putEvent verify events cookies body = (.serverError, events) ∧
      putStatus (putEvent verify events cookies body).1 = 500) ∧
    (∀ tok p, cookies ("auth_token_" ++ body.id) = some tok →
      verify tok = some p →
      events.find? (fun e => e.id = body.id) = none →
      putEvent verify events cookies body = (.notFoundError, events) ∧
      putStatus (putEvent verify events cookies body).1 = 404) ∧
    (∀ tok p e, cookies ("auth_token_" ++ body.id) = some tok →
      verify tok = some p →
      events.find? (fun e => e.id = body.id) = some e →
      putEvent verify events cookies body =
        (.ok (applySet e body), updateFirst events body.id body) ∧
      putStatus (putEvent verify events cookies body).1 = 200) := by
  refine ⟨fun hc => ?_, fun tok hc hv => ?_, fun tok p hc hv hf => ?_,
    fun tok p e hc hv hf => ?_⟩
  · unfold putEvent
    rw [hc]
    exact ⟨rfl, rfl⟩
  · unfold putEvent
    simp only [hc, hv]
    exact ⟨trivial, rfl⟩
  · unfold putEvent
    simp only [hc, hv, hf]
    exact ⟨trivial, rfl⟩
  · unfold putEvent
    simp only [hc, hv, hf]
    exact ⟨trivial, rfl⟩

/-- C3 witness: the four routing outcomes evaluated on the fixture store —
no cookie, failing verification, unknown event id, and a successful
replace. -/
theorem C3_witness :
    (putEvent verifySam [evStored] (fun _ => none) bodyCrafted =
        (.unauthenticated, [evStored]) ∧
      putStatus (putEvent verifySam [evStored] (fun _ => none) bodyCrafted).1 = 401) ∧
    (putEvent verifyFail [evStored] cookiesE bodyCrafted =
        (.serverError, [evStored]) ∧
      putStatus (putEvent verifyFail [evStored] cookiesE bodyCrafted).1 = 500) ∧
    (putEvent verifySam [] cookiesE bodyCrafted = (.notFoundError, []) ∧
      putStatus (putEvent verifySam [] cookiesE bodyCrafted).1 = 404) ∧
    (putEvent verifySam [evStored] cookiesE bodyCrafted =
        (.ok (applySet evStored bodyCrafted),
         updateFirst [evStored] bodyCrafted.id bodyCrafted) ∧
      putStatus (putEvent verifySam [evStored] cookiesE bodyCrafted).1 = 200) :=
  ⟨(C3_thm verifySam [evStored] (fun _ => none) bodyCrafted).1 rfl,
   (C3_thm verifyFail [evStored] cookiesE bodyCrafted).2.1 "tok" (by decide) rfl,
   (C3_thm verifySam [] cookiesE bodyCrafted).2.2.1 "tok"
     { userName := "Sam", eventId := "e" } (by decide) rfl rfl,
   (C3_thm verifySam [evStored] cookiesE bodyCrafted).2.2.2 "tok"
     { userName := "Sam", eventId := "e" } evStored (by decide) rfl (by decide)⟩

/-- C9: any credential that verifies — no matter which identity its payload
names — lets `PUT /events` overwrite the stored document's body fields
wholesale: two verifiers decoding the same token to different identities
produce identical results, the first matching stored document is replaced,
and its `responses` array (every identity's entries) together with the
declared-immutable `selectedDates`, `startTime`, `endTime` and `timezone`
all become whatever the request body says. -/
theorem C9_thm (v1 v2 : String → Option JwtPayload)
    (events : List EventDocument) (cookies : String → Option String)
    (body : EventBody) (tok : String) (p1 p2 : JwtPayload)
    (e : EventDocument)
    (hc : cookies ("auth_token_" ++ body.id) = some tok)
    (h1 : v1 tok = some p1) (h2 : v2 tok = some p2)
    (hf : events.find? (fun x => x.id = body.id) = some e) :
    putEvent v1 events cookies body = putEvent v2 events cookies body ∧
    putEvent v1 events cookies body =
      (.ok (applySet e body), updateFirst events body.id body) ∧
    (applySet e body).responses = body.responses ∧
    (applySet e body).selectedDates = body.selectedDates ∧
    (applySet e body).startTime = body.startTime ∧
    (applySet e body).endTime = body.endTime ∧
    (applySet e body).timezone = body.timezone := by
  have hres1 : putEvent v1 events cookies body =
      (.ok (applySet e body), updateFirst events body.id body) := by
    unfold putEvent
    simp only [hc, h1, hf]
  have hres2 : putEvent v2 events cookies body =
      (.ok (applySet e body), updateFirst events body.id body) := by
    unfold putEvent
    simp only [hc, h2, hf]
  exact ⟨hres1.trans hres2.symm, hres1, rfl, rfl, rfl, rfl, rfl⟩

/-- C9 witness: `Sam`'s and `Eve`'s credentials produce the same wholesale
replace of the stored fixture event with the crafted body. -/
theorem C9_witness :
    putEvent verifySam [evStored] cookiesE bodyCrafted =
      putEvent verifyEve [evStored] cookiesE bodyCrafted ∧
    putEvent verifySam [evStored] cookiesE bodyCrafted =
      (.ok (applySet evStored bodyCrafted),
       updateFirst [evStored] bodyCrafted.id bodyCrafted) ∧
    (applySet evStored bodyCrafted).responses = bodyCrafted.responses ∧
    (applySet evStored bodyCrafted).selectedDates = bodyCrafted.selectedDates ∧
    (applySet evStored bodyCrafted).startTime = bodyCrafted.startTime ∧
    (applySet evStored bodyCrafted).endTime = bodyCrafted.endTime ∧
    (applySet evStored bodyCrafted).timezone = bodyCrafted.timezone :=
  C9_thm verifySam verifyEve [evStored] cookiesE bodyCrafted "tok"
    { userName := "Sam", eventId := "e" } { userName := "Eve", eventId := "e" }
    evStored (by decide) rfl rfl (by decide)

lemma slotLoop_explicit (s e : Int) (h : s ≤ e) :
    slotLoop s e =
      (List.range ((e - s).toNat / 15 + 1)).map (fun i : Nat => s + 15 * (i : Int)) := by
  suffices H : ∀ (k : Nat) (s e : Int), (e - s).toNat ≤ k → s ≤ e →
      slotLoop s e =
        (List.range ((e - s).toNat / 15 + 1)).map (fun i : Nat => s + 15 * (i : Int)) by
    exact H ((e - s).toNat) s e le_rfl h
  intro k
  induction k with
  | zero =>
    intro s e hk h
    have h15 : ¬ s + 15 ≤ e := by omega
    rw [slotLoop_unfold, if_pos h, slotLoop_unfold, if_neg h15]
    have h0 : (e - s).toNat / 15 = 0 := by omega
    rw [h0]
    simp [List.range_succ]
  | succ k ih =>
    intro s e hk h
    rw [slotLoop_unfold, if_pos h]
    by_cases h15 : s + 15 ≤ e
    · rw [ih (s + 15) e (by omega) h15]
      have hdiv : (e - s).toNat / 15 = (e - (s + 15)).toNat / 15 + 1 := by omega
      rw [hdiv]
      nth_rewrite 2 [List.range_succ_eq_map]
      rw [List.map_cons, List.map_map]
      congr 1
      · simp
      · refine List.map_congr_left (fun i _ => ?_)
        simp only [Function.comp_apply]
        push_cast
        ring
    · rw [slotLoop_unfold, if_neg h15]
      have h0 : (e - s).toNat / 15 = 0 := by omega
      rw [h0]
      simp [List.range_succ]

/-- C6: for a window with no rollover (converted start at most converted
end) the emission loop yields exactly `((end − start)/15) + 1` instants,
which form the arithmetic progression with step 15 (hence consecutive
instants are 15 minutes apart and the list is strictly increasing); in
particular the 9:00 AM – 5:00 PM window produces 33 slots. -/
theorem C6_thm (s e : Int) (h : s ≤ e) :
    (slotLoop s e).length = (e - s).toNat / 15 + 1 ∧
    slotLoop s e =
      (List.range ((e - s).toNat / 15 + 1)).map (fun i : Nat => s + 15 * (i : Int)) ∧
    List.Chain' (fun a b : Int => b = a + 15) (slotLoop s e) ∧
    (slotLoop s e).Pairwise (· < ·) ∧
    (generateTimeSlotsForTimezone 0 0 ⟨9, 0, some false⟩ ⟨5, 0, some true⟩).length = 33 := by
  have hex := slotLoop_explicit s e h
  refine ⟨by rw [hex]; simp, hex, ?_, ?_, ?_⟩
  · rw [hex, List.chain'_map, List.chain'_range_succ]
    intro m hm
    push_cast
    ring
  · rw [hex]
    refine List.Pairwise.map _ (fun a b hab => ?_) (List.pairwise_lt_range _)
    omega
  · have h95 : generateTimeSlotsForTimezone 0 0 ⟨9, 0, some false⟩ ⟨5, 0, some true⟩ =
        slotLoop 540 1020 := by
      simp [generateTimeSlotsForTimezone, to24Hour]
    rw [h95, slotLoop_explicit 540 1020 (by norm_num)]
    simp

/-- C6 witness: the loop evaluated on the 9:00 AM – 5:00 PM window (minutes
540 to 1020) has the 33 slots the count formula gives. -/
theorem C6_witness : (540 : Int) ≤ 1020 ∧ (slotLoop 540 1020).length = 33 := by
  have h := C6_thm 540 1020 (by norm_num)
  refine ⟨by norm_num, ?_⟩
  rw [h.1]
  decide

/-- C7: for any slot with `count` available out of `total` considered
identities, the everyone-view coloring of `getTimeSlotColor` realizes
exactly the claimed ratio buckets (`0 → none`, `(0,0.5) → low`,
`[0.5,0.75) → medium`, `[0.75,1) → high`, `{1} → full`, `total = 0 → none`);
in particular 1 available out of 2 buckets as medium, not low. -/
theorem C7_thm (count total : Nat) (h : count ≤ total) :
    timeSlotBucket count total = ratioBucketSpec count total ∧
    timeSlotBucket 1 2 = .medium := by
  constructor
  · by_cases ht : total = 0
    · simp [timeSlotBucket, ratioBucketSpec, ht]
    · have htq : (0 : ℚ) < (total : ℚ) := by
        exact_mod_cast Nat.pos_of_ne_zero ht
      have hr0 : 0 ≤ (count : ℚ) / (total : ℚ) := by positivity
      have hr1 : (count : ℚ) / (total : ℚ) ≤ 1 := by
        rw [div_le_one htq]
        exact_mod_cast h
      simp only [timeSlotBucket, ratioBucketSpec, ht, if_false]
      set r : ℚ := (count : ℚ) / (total : ℚ) with hrdef
      rcases eq_or_lt_of_le hr1 with h1 | h1
      · rw [if_pos h1, if_neg (by rw [h1]; norm_num),
          if_neg (by rw [h1]; norm_num), if_neg (by rw [h1]; norm_num),
          if_neg (by rw [h1]; norm_num)]
      · rw [if_neg (ne_of_lt h1)]
        rcases eq_or_lt_of_le hr0 with h0 | h0
        · rw [if_neg (by rw [← h0]; norm_num), if_neg (by rw [← h0]; norm_num),
            if_neg (by rw [← h0]; norm_num), if_pos h0.symm]
        · rw [if_neg (ne_of_gt h0)]
          rcases lt_or_le r (1 / 2 : ℚ) with h12 | h12
          · rw [if_neg (by intro hge; linarith), if_neg (by intro hge; linarith),
              if_pos h0, if_pos h12]
          · rcases lt_or_le r (3 / 4 : ℚ) with h34 | h34
            · rw [if_neg (by intro hge; linarith), if_pos h12,
                if_neg (by intro hlt; linarith), if_pos h34]
            · rw [if_pos h34, if_neg (by intro hlt; linarith),
                if_neg (by intro hlt; linarith), if_pos h1]
  · unfold timeSlotBucket
    norm_num

/-- C7 witness: the correspondence between code buckets and spec buckets
evaluated at 1 available out of 2, the medium case of the claim. -/
theorem C7_witness :
    1 ≤ 2 ∧
    (timeSlotBucket 1 2 = ratioBucketSpec 1 2 ∧
      timeSlotBucket 1 2 = Bucket.medium) :=
  ⟨by norm_num, C7_thm 1 2 (by norm_num)⟩

/-- C8: a slot enters the best-times ranking exactly when its
`available/total` ratio is at least the literal 0.51; 1 of 2 (ratio 0.5) is
excluded, 2 of 3 (ratio 2/3) is included. -/
theorem C8_thm :
    (∀ (m : List BestSlotEntry) (s : BestSlotEntry),
        s ∈ bestSlots m ↔
          s ∈ m ∧ (s.available : ℚ) / (s.total : ℚ) ≥ 51 / 100) ∧
    bestSlots [{ timestamp := 0, time := "10:00 AM", available := 1, total := 2 }] = [] ∧
    bestSlots [{ timestamp := 0, time := "10:00 AM", available := 2, total := 3 }] =
      [{ timestamp := 0, time := "10:00 AM", available := 2, total := 3 }] := by
  refine ⟨fun m s => ?_, ?_, ?_⟩
  · simp [bestSlots, List.mem_filter]
  · norm_num [bestSlots, List.filter_cons]
  · norm_num [bestSlots, List.filter_cons]

/-- C10: with a non-empty selection active, every best-times entry counts
availability over the selection-filtered responses only (so it never
exceeds the selected-subset size) while its `total` denominator is the full
response count, whereas the everyone-view coloring divides by the number of
checked selection entries; on the fixture (three responses, `A` and `B`
selected and both available) the best-times ratio is 2/3 while the coloring
sees ratio 1 and buckets the slot full. -/
theorem C10_thm (responses : List EventResponse) (sel : List (String × Bool))
    (date : String) (slots : List (Int × String))
    (h : hasSelectedUsers sel = true) :
    (∀ en ∈ bestTimesMap responses sel date slots,
        en.total = responses.length ∧
        en.available =
          (getAvailabilityDetails responses sel date (toString en.timestamp)).length ∧
        en.available ≤
          (responses.filter (fun r => selectedLookup sel r.name)).length) ∧
    colorTotalResponses responses sel = (sel.filter (fun p => p.2)).length ∧
    (bestTimesMap threeResponses selAB "d" [(600, "10:00 AM")]).map
        (fun en => ((en.available : ℚ) / (en.total : ℚ))) = [2 / 3] ∧
    getTimeSlotColor threeResponses selAB "d" "600" = .full := by
  refine ⟨?_, ?_, ?_, ?_⟩
  · intro en hen
    simp only [bestTimesMap, List.mem_map] at hen
    obtain ⟨sl, _, rfl⟩ := hen
    refine ⟨rfl, rfl, ?_⟩
    simp only [getAvailabilityDetails, filteredResponses, h, if_true,
      List.length_map]
    exact List.length_filter_le _ _
  · simp [colorTotalResponses, h]
  · have h3 : bestTimesMap threeResponses selAB "d" [(600, "10:00 AM")] =
        [{ timestamp := 600, time := "10:00 AM", available := 2, total := 3 }] := by
      decide
    rw [h3]
    norm_num
  · have h1 : getAvailabilityDetails threeResponses selAB "d" "600" = ["A", "B"] := by
      decide
    have h2 : colorTotalResponses threeResponses selAB = 2 := by decide
    unfold getTimeSlotColor
    rw [h1, h2]
    unfold timeSlotBucket
    norm_num

/-- C10 witness: the statement applied to the three-response fixture with
`A` and `B` selected. -/
theorem C10_witness :
    hasSelectedUsers selAB = true ∧
    colorTotalResponses threeResponses selAB =
      (selAB.filter (fun p => p.2)).length ∧
    (bestTimesMap threeResponses selAB "d" [(600, "10:00 AM")]).map
        (fun en => ((en.available : ℚ) / (en.total : ℚ))) = [2 / 3] ∧
    getTimeSlotColor threeResponses selAB "d" "600" = .full := by
  have h := C10_thm threeResponses selAB "d" [(600, "10:00 AM")] (by decide)
  exact ⟨by decide, h.2.1, h.2.2.1, h.2.2.2⟩
